import Mathlib

/-!
Verification of the thread-pool dispatcher interface of SObjectizer-5
(`so_5/disp/thread_pool/h/pub.hpp`), as a shallow embedding in Lean.

Pure declarations with inline bodies in the header (`default_thread_pool_size`,
the `binder`/`create_disp_binder` callback overloads, the zero-argument
`create_disp`/`create_private_disp` factories) are translated directly from
the source.  Members whose bodies live in the (absent) implementation file
(`params_t` constructor and setters, the `binder(const params_t &)` validation,
the demand-queue / worker-pool machinery) are modelled from the specification,
and each such definition says so in its doc comment.
-/

namespace So5ThreadPool

/-- Type of FIFO mechanism for agent's demands, from `enum class fifo_t`
  in pub.hpp: `cooperation` keeps one FIFO for all agents of a cooperation,
  `individual` keeps a FIFO per single agent. -/
inductive fifo_t : Type where
  | cooperation : fifo_t
  | individual : fifo_t
deriving DecidableEq, Repr

/-- Parameters for the thread pool dispatcher, from `class params_t` in
  pub.hpp: a FIFO type and a maximum count of demands processed at once. -/
structure params_t : Type where
  m_fifo : fifo_t
  m_max_demands_at_once : Nat
deriving DecidableEq, Repr

/-- Modelled from the spec: the body of the default constructor `params_t()`
  is not under src/ (only its declaration is).  The declaration's doc comment
  in pub.hpp states "Sets FIFO to fifo_t::cooperation and max_demands_at_once
  to 4", and the spec gives the batch-limit default as 4. -/
def params_t.default : params_t :=
  { m_fifo := fifo_t.cooperation, m_max_demands_at_once := 4 }

/-- Modelled from the spec: the body of the setter `params_t::fifo(fifo_t)`
  is not under src/.  Per the spec, setters "set fields and return the
  object"; in value-passing style the returned object is the updated one. -/
def params_t.fifo (p : params_t) (v : fifo_t) : params_t :=
  { p with m_fifo := v }

/-- Modelled from the spec: the body of `params_t::query_fifo() const` is not
  under src/; it reads the FIFO field back. -/
def params_t.query_fifo (p : params_t) : fifo_t :=
  p.m_fifo

/-- Modelled from the spec: the body of the setter
  `params_t::max_demands_at_once(std::size_t)` is not under src/.  Per the
  spec it stores the value and returns the object, with no validation at the
  setter. -/
def params_t.max_demands_at_once (p : params_t) (v : Nat) : params_t :=
  { p with m_max_demands_at_once := v }

/-- Modelled from the spec: the body of
  `params_t::query_max_demands_at_once() const` is not under src/; it reads
  the batch-limit field back. -/
def params_t.query_max_demands_at_once (p : params_t) : Nat :=
  p.m_max_demands_at_once

/-- Translated from `default_thread_pool_size()` in pub.hpp:
  `auto c = std::thread::hardware_concurrency(); if( !c ) c = 2; return c;`.
  The value reported by `std::thread::hardware_concurrency()` is passed in
  as the argument `hardware_concurrency`. -/
def default_thread_pool_size (hardware_concurrency : Nat) : Nat :=
  if hardware_concurrency = 0 then 2 else hardware_concurrency

/-- The configuration errors of this core, per the spec's error taxonomy:
  a zero batch limit in binding parameters. -/
inductive config_error : Type where
  | batch_limit_zero : config_error
deriving DecidableEq, Repr

/-- Modelled from the spec: `private_dispatcher_t::binder(const params_t &)`
  is a pure virtual in pub.hpp and its implementation is not under src/.
  The spec states "`binder(params)` fails with a configuration error if
  `params.batch_limit == 0`" and that the `batch_limit >= 1` invariant is
  enforced where params are consumed.  The validation is modelled as an
  `Except` returning check. -/
def binder_check (params : params_t) : Except config_error Unit :=
  if params.m_max_demands_at_once = 0 then Except.error config_error.batch_limit_zero
  else Except.ok ()

/-- Translated from the inline overload
  `private_dispatcher_t::binder(std::function<void(params_t &)>)` in pub.hpp:
  `params_t p; params_setter( p ); return this->binder( p );`.
  The abstract `binder(const params_t &)` being forwarded to is passed in as
  the function argument `binder`; the C++ mutation of `p` by reference is
  the function application `params_setter p`. -/
def binder_with_setter {α : Type} (binder : params_t → α)
    (params_setter : params_t → params_t) : α :=
  binder (params_setter params_t.default)

/-- Translated from the inline overload
  `create_disp_binder(std::string, std::function<void(params_t &)>)` in
  pub.hpp: `params_t params; params_setter( params );
  return create_disp_binder( std::move(disp_name), params );`.
  The two-argument `create_disp_binder` being forwarded to is passed in as
  the function argument `create_disp_binder`. -/
def create_disp_binder_with_setter {α : Type}
    (create_disp_binder : String → params_t → α)
    (disp_name : String) (params_setter : params_t → params_t) : α :=
  create_disp_binder disp_name (params_setter params_t.default)

/-- Translated from the inline zero-argument `create_disp()` in pub.hpp:
  `return create_disp( default_thread_pool_size() );`.  The one-argument
  factory is passed in as `create_disp`, and the hardware-concurrency value
  read by `default_thread_pool_size` as `hardware_concurrency`. -/
def create_disp_default {α : Type} (create_disp : Nat → α)
    (hardware_concurrency : Nat) : α :=
  create_disp (default_thread_pool_size hardware_concurrency)

/-- Translated from the inline zero-argument `create_private_disp()` in
  pub.hpp: `return create_private_disp( default_thread_pool_size() );`. -/
def create_private_disp_default {α : Type} (create_private_disp : Nat → α)
    (hardware_concurrency : Nat) : α :=
  create_private_disp (default_thread_pool_size hardware_concurrency)

/-- A demand addressed to one agent of one cooperation; `payload` stands for
  the opaque event invocation it carries. -/
structure Demand : Type where
  agent : Nat
  coop : Nat
  payload : Nat
deriving DecidableEq, Repr

/-- Modelled from the spec: the demand-queue identity a demand is routed to
  under each FIFO mode (the queue implementation is not under src/, only the
  `fifo_t` declaration is).  Under `cooperation` all agents of one
  cooperation share one queue keyed by the cooperation; under `individual`
  each agent has its own queue keyed by the agent. -/
def queue_key (f : fifo_t) (d : Demand) : Nat :=
  match f with
  | fifo_t.cooperation => d.coop
  | fifo_t.individual => d.agent

/-- Pointwise update of one key's entry in a key-indexed map of lists. -/
def upd_at {α : Type} (m : Nat → List α) (k : Nat) (g : List α → List α) :
    Nat → List α :=
  fun k' => if k' = k then g (m k') else m k'

/-- Modelled from the spec: the observable state of the dispatcher's demand
  queues.  Per key: the full arrival history, the still-pending demands, the
  worker threads currently owning (running) the queue, and the demands
  already executed, in execution order. -/
structure DQState : Type where
  arrivals : Nat → List Demand
  pending : Nat → List Demand
  owner : Nat → List Nat
  executed : Nat → List Demand

/-- The initial state: no demands, no owners. -/
def DQState.init : DQState :=
  { arrivals := fun _ => [], pending := fun _ => [],
    owner := fun _ => [], executed := fun _ => [] }

/-- Modelled from the spec: the atomic transitions of the demand-queue
  machinery under FIFO mode `f`.  `push` appends a demand to the tail of its
  queue; `acquire` lets a worker take ownership of a queue only when no
  worker owns it; `exec` lets the owning worker execute the head demand;
  `release` returns the queue.  Interleaving of these steps models the
  concurrent execution. -/
inductive dq_step (f : fifo_t) : DQState → DQState → Prop where
  | push (s : DQState) (d : Demand) :
      dq_step f s
        { arrivals := upd_at s.arrivals (queue_key f d) (fun q => q ++ [d]),
          pending := upd_at s.pending (queue_key f d) (fun q => q ++ [d]),
          owner := s.owner, executed := s.executed }
  | acquire (s : DQState) (k w : Nat) (h : s.owner k = []) :
      dq_step f s { s with owner := upd_at s.owner k (fun _ => [w]) }
  | exec (s : DQState) (k w : Nat) (d : Demand) (rest : List Demand)
      (how : s.owner k = [w]) (hp : s.pending k = d :: rest) :
      dq_step f s
        { s with pending := upd_at s.pending k (fun _ => rest),
                 executed := upd_at s.executed k (fun q => q ++ [d]) }
  | release (s : DQState) (k w : Nat) (h : s.owner k = [w]) :
      dq_step f s { s with owner := upd_at s.owner k (fun _ => []) }

/-- States reachable from the empty dispatcher by interleaved steps. -/
def dq_reachable (f : fifo_t) (s : DQState) : Prop :=
  Relation.ReflTransGen (dq_step f) DQState.init s

/-- The per-queue invariant: at most one owning worker, and the executed
  demands followed by the pending ones are exactly the arrivals in order. -/
def dq_inv (s : DQState) : Prop :=
  ∀ k, (s.owner k).length ≤ 1 ∧ s.executed k ++ s.pending k = s.arrivals k

lemma dq_inv_init : dq_inv DQState.init := by
  intro k
  exact ⟨by simp [DQState.init], by simp [DQState.init]⟩

lemma dq_inv_step {f : fifo_t} {s s' : DQState}
    (h : dq_step f s s') (hi : dq_inv s) : dq_inv s' := by
  cases h with
  | push d =>
      intro k
      refine ⟨(hi k).1, ?_⟩
      simp only [upd_at]
      by_cases hk : k = queue_key f d
      · subst hk
        simp only [if_pos rfl, if_true]
        rw [← List.append_assoc, (hi (queue_key f d)).2]
      · simp only [if_neg hk]
        exact (hi k).2
  | acquire k0 w h0 =>
      intro k
      refine ⟨?_, (hi k).2⟩
      simp only [upd_at]
      by_cases hk : k = k0
      · subst hk
        simp
      · simp only [if_neg hk]
        exact (hi k).1
  | exec k0 w d rest how hp =>
      intro k
      refine ⟨(hi k).1, ?_⟩
      simp only [upd_at]
      by_cases hk : k = k0
      · subst hk
        simp only [if_pos rfl, if_true]
        rw [List.append_assoc, List.singleton_append, ← hp]
        exact (hi k).2
      · simp only [if_neg hk]
        exact (hi k).2
  | release k0 w h0 =>
      intro k
      refine ⟨?_, (hi k).2⟩
      simp only [upd_at]
      by_cases hk : k = k0
      · subst hk
        simp
      · simp only [if_neg hk]
        exact (hi k).1

lemma dq_inv_reachable {f : fifo_t} {s : DQState}
    (h : dq_reachable f s) : dq_inv s := by
  induction h with
  | refl => exact dq_inv_init
  | tail _ hstep ih => exact dq_inv_step hstep ih

/-- Modelled from the spec: the state of the runnable set and queues as one
  worker turn sees them (the worker loop is not under src/).  `runnable` is
  the FIFO list of runnable queue keys, `queues` the pending demands per
  key. -/
structure PoolState : Type where
  runnable : List Nat
  queues : Nat → List Demand

/-- Modelled from the spec: one worker turn.  Acquire the queue at the head
  of the runnable set, remove and execute a batch of at most `limit` demands
  from its head preserving order, then return the queue: dropped from the
  runnable set when emptied, re-inserted at the tail of the runnable set
  otherwise.  Returns the new state and the executed batch. -/
def worker_turn (limit : Nat) (s : PoolState) : PoolState × List Demand :=
  match s.runnable with
  | [] => (s, [])
  | k :: rest =>
      let q := s.queues k
      let remaining := List.drop limit q
      ({ runnable := if remaining = [] then rest else rest ++ [k],
         queues := fun j => if j = k then remaining else s.queues j },
       List.take limit q)

end So5ThreadPool

namespace So5ThreadPool

/-- Claim C1 counterexample: when hardware-concurrency detection reports 1,
  `default_thread_pool_size()` returns 1, not `max(1, 2) = 2`, so the claim
  that it always returns the maximum of the detected value and 2 is false. -/
theorem default_thread_pool_size_not_always_max :
    ¬ (default_thread_pool_size 1 = Nat.max 1 2) := by
  decide

/-- Claim C1 (amended): `default_thread_pool_size()` returns the maximum of
  the hardware-detected concurrency and 2 for every detected value other
  than exactly 1, where it returns 1; in particular it returns 2 when
  detection reports zero. -/
theorem default_thread_pool_size_spec (c : Nat) :
    default_thread_pool_size c = if c = 1 then 1 else Nat.max c 2 := by
  unfold default_thread_pool_size
  rcases c with _ | c
  · decide
  · rcases c with _ | c
    · decide
    · simp [Nat.max_def]

/-- Claim C3: a default-constructed `params_t` has `max_demands_at_once`
  equal to 4. -/
theorem params_default_max_demands_at_once :
    params_t.default.query_max_demands_at_once = 4 := by
  rfl

/-- Claim C10: a default-constructed `params_t` has FIFO type
  `fifo_t::cooperation`. -/
theorem params_default_fifo_cooperation :
    params_t.default.query_fifo = fifo_t.cooperation := by
  rfl

/-- Claim C4: the binder's batch-limit validation fails with a configuration
  error exactly when the parameters' `max_demands_at_once` is 0, and raises
  no error for every value at least 1. -/
theorem binder_check_fails_iff_zero (p : params_t) :
    (binder_check p = Except.error config_error.batch_limit_zero ↔
      p.query_max_demands_at_once = 0) ∧
    (1 ≤ p.query_max_demands_at_once → binder_check p = Except.ok ()) := by
  unfold binder_check params_t.query_max_demands_at_once
  constructor
  · constructor
    · intro h
      by_contra hne
      simp [hne] at h
    · intro h
      simp [h]
  · intro h
    have hne : p.m_max_demands_at_once ≠ 0 := by omega
    simp [hne]

/-- Claim C7: the setters `fifo` and `max_demands_at_once` store the given
  value in the corresponding field of the returned object (so the matching
  accessor reads exactly that value back), leave the other field unchanged,
  and chain: applying both setters in sequence to one value yields an object
  carrying both stored values. -/
theorem params_setters_store_and_chain (p : params_t) (v : fifo_t) (w : Nat) :
    (p.fifo v).query_fifo = v ∧
    (p.fifo v).query_max_demands_at_once = p.query_max_demands_at_once ∧
    (p.max_demands_at_once w).query_max_demands_at_once = w ∧
    (p.max_demands_at_once w).query_fifo = p.query_fifo ∧
    ((p.fifo v).max_demands_at_once w).query_fifo = v ∧
    ((p.fifo v).max_demands_at_once w).query_max_demands_at_once = w := by
  exact ⟨rfl, rfl, rfl, rfl, rfl, rfl⟩

/-- Claim C8: setting the batch limit to 0 at the setter succeeds without
  error or silent correction — the accessor then returns 0 — and the
  `batch_limit >= 1` invariant is enforced only where the parameters are
  consumed, where the check rejects such a value. -/
theorem setter_accepts_zero_check_rejects (p : params_t) :
    (p.max_demands_at_once 0).query_max_demands_at_once = 0 ∧
    binder_check (p.max_demands_at_once 0) =
      Except.error config_error.batch_limit_zero := by
  constructor
  · rfl
  · rfl

/-- Claim C5: the callback overloads of `binder` and `create_disp_binder`
  each default-construct a `params_t`, apply the configuration function to
  it once, and forward the result to the params-taking overload. -/
theorem callback_overloads_forward {α β : Type} (binder : params_t → α)
    (create_disp_binder : String → params_t → β)
    (params_setter : params_t → params_t) (disp_name : String) :
    binder_with_setter binder params_setter = binder (params_setter params_t.default) ∧
    create_disp_binder_with_setter create_disp_binder disp_name params_setter =
      create_disp_binder disp_name (params_setter params_t.default) := by
  exact ⟨rfl, rfl⟩

/-- Claim C6: the zero-argument `create_disp()` and `create_private_disp()`
  are each equivalent to calling the explicit-count factory at
  `default_thread_pool_size()`. -/
theorem default_factories_forward {α β : Type} (create_disp : Nat → α)
    (create_private_disp : Nat → β) (hardware_concurrency : Nat) :
    create_disp_default create_disp hardware_concurrency =
      create_disp (default_thread_pool_size hardware_concurrency) ∧
    create_private_disp_default create_private_disp hardware_concurrency =
      create_private_disp (default_thread_pool_size hardware_concurrency) := by
  exact ⟨rfl, rfl⟩

/-- Witness for `binder_check_fails_iff_zero`: at batch limit 0 the check
  errors, at batch limit 3 it succeeds. -/
theorem binder_check_fails_iff_zero_witness :
    binder_check { m_fifo := fifo_t.cooperation, m_max_demands_at_once := 0 } =
      Except.error config_error.batch_limit_zero ∧
    binder_check { m_fifo := fifo_t.cooperation, m_max_demands_at_once := 3 } =
      Except.ok () :=
  ⟨(binder_check_fails_iff_zero
      { m_fifo := fifo_t.cooperation, m_max_demands_at_once := 0 }).1.2 rfl,
   (binder_check_fails_iff_zero
      { m_fifo := fifo_t.cooperation, m_max_demands_at_once := 3 }).2 (by decide)⟩

/-- Claim C2: in every state reachable by interleaved pushes and worker
  steps, under either FIFO mode, the demands executed from each Demand Queue
  are exactly the first arrivals of that queue, in arrival order (FIFO), and
  at most one worker owns (executes from) the queue at any instant. -/
theorem demand_queue_fifo_single_worker (f : fifo_t) (s : DQState)
    (h : dq_reachable f s) (k : Nat) :
    s.executed k ++ s.pending k = s.arrivals k ∧
    s.executed k = (s.arrivals k).take (s.executed k).length ∧
    (s.owner k).length ≤ 1 := by
  have hi := dq_inv_reachable h
  refine ⟨(hi k).2, ?_, (hi k).1⟩
  rw [← (hi k).2, List.take_left]

/-- A concrete demand used to exercise the demand-queue model. -/
def dq_demo_demand : Demand := { agent := 1, coop := 10, payload := 0 }

/-- The state after pushing `dq_demo_demand` into the empty dispatcher under
  cooperation FIFO. -/
def dq_demo_state : DQState :=
  { arrivals := upd_at DQState.init.arrivals
      (queue_key fifo_t.cooperation dq_demo_demand) (fun q => q ++ [dq_demo_demand]),
    pending := upd_at DQState.init.pending
      (queue_key fifo_t.cooperation dq_demo_demand) (fun q => q ++ [dq_demo_demand]),
    owner := DQState.init.owner, executed := DQState.init.executed }

/-- Witness for `demand_queue_fifo_single_worker`, at the reachable state
  with one pushed demand. -/
theorem demand_queue_fifo_single_worker_witness :
    dq_demo_state.executed 10 ++ dq_demo_state.pending 10 = dq_demo_state.arrivals 10 ∧
    dq_demo_state.executed 10 =
      (dq_demo_state.arrivals 10).take (dq_demo_state.executed 10).length ∧
    (dq_demo_state.owner 10).length ≤ 1 :=
  demand_queue_fifo_single_worker fifo_t.cooperation dq_demo_state
    (Relation.ReflTransGen.single (dq_step.push DQState.init dq_demo_demand)) 10

/-- Claim C9: in one worker turn with batch limit `B`, the worker executes
  at most `B` demands, those demands are the head of the queue in order, and
  the queue, when still non-empty afterwards, is re-inserted at the tail of
  the runnable set (and simply dropped from it when it emptied). -/
theorem worker_turn_batch_bound (B : Nat) (_hB : 1 ≤ B) (s : PoolState)
    (k : Nat) (rest : List Nat) (h : s.runnable = k :: rest) :
    ((worker_turn B s).2).length ≤ B ∧
    (worker_turn B s).2 = (s.queues k).take B ∧
    (List.drop B (s.queues k) ≠ [] →
      ((worker_turn B s).1).runnable = rest ++ [k]) ∧
    (List.drop B (s.queues k) = [] →
      ((worker_turn B s).1).runnable = rest) := by
  obtain ⟨run, qs⟩ := s
  dsimp only at h
  subst h
  refine ⟨?_, rfl, ?_, ?_⟩
  · show (List.take B (qs k)).length ≤ B
    rw [List.length_take]
    exact Nat.min_le_left _ _
  · intro hne
    show (if List.drop B (qs k) = [] then rest else rest ++ [k]) = rest ++ [k]
    rw [if_neg hne]
  · intro he
    show (if List.drop B (qs k) = [] then rest else rest ++ [k]) = rest
    rw [if_pos he]

/-- A concrete pool state with a three-demand queue at key 5 and a further
  runnable queue at key 9. -/
def demo_pool : PoolState :=
  { runnable := [5, 9],
    queues := fun j =>
      if j = 5 then
        [{ agent := 1, coop := 1, payload := 0 },
         { agent := 1, coop := 1, payload := 1 },
         { agent := 1, coop := 1, payload := 2 }]
      else [] }

/-- Witness for `worker_turn_batch_bound`: with batch limit 2 on a
  three-demand queue, at most 2 demands run and the queue goes to the tail
  of the runnable set, behind key 9. -/
theorem worker_turn_batch_bound_witness :
    ((worker_turn 2 demo_pool).2).length ≤ 2 ∧
    ((worker_turn 2 demo_pool).1).runnable = [9] ++ [5] :=
  ⟨(worker_turn_batch_bound 2 (by decide) demo_pool 5 [9] rfl).1,
   (worker_turn_batch_bound 2 (by decide) demo_pool 5 [9] rfl).2.2.1 (by decide)⟩

end So5ThreadPool
